import Mathlib

/-!
Verification of the dynamic channel runtime of the gpt-load gateway.

This file is a shallow embedding of the Go source of the dynamic channel
subsystem (script runtime, channel factory, reload controller, catalogue
service, security validator) together with theorems settling the claims of
the specification against that embedding.  Each definition carries a
reference to the source function it translates.  External collaborators
(the goja JavaScript engine, Go's regexp package, the sha256 hash, the
relational store) are either modelled explicitly from their documented
behaviour or taken as oracle parameters, as noted on each definition.
-/

deriving instance DecidableEq for Except

namespace GptLoad

/-! ## Sandboxed runtime rate counters

Translation of the rate-limiting state of `ScriptRuntime`
(internal/channel/script_runtime.go, struct fields lines 28-31).  Times are
in seconds; the zero value of `lastRequestTime`/`lastLogTime` models Go's
zero `time.Time`, which lies far in the past of every real call time, so
every realistic call time is at least 60. -/
structure RateCounters where
  httpRequestCount : Nat
  lastRequestTime : Int
  logCount : Nat
  lastLogTime : Int
  deriving DecidableEq, Repr

/-- A freshly constructed `ScriptRuntime` has zero counters and zero
window anchors (Go zero values). -/
def initialCounters : RateCounters :=
  { httpRequestCount := 0, lastRequestTime := 0, logCount := 0, lastLogTime := 0 }

/-- The rate-limit check of `createHTTPRequestFunc`
(script_runtime.go lines 147-160): if the current time is within one
minute of the stored anchor, increment the counter and reject once it
exceeds 10 (the counter keeps the increment, as in the source); otherwise
reset the counter to 1 and move the anchor to `now`.  Returns whether the
call passes together with the updated counters. -/
def httpRateStep (sr : RateCounters) (now : Int) : Bool × RateCounters :=
  if now - sr.lastRequestTime < 60 then
    let c := sr.httpRequestCount + 1
    if c > 10 then
      (false, { sr with httpRequestCount := c })
    else
      (true, { sr with httpRequestCount := c })
  else
    (true, { sr with httpRequestCount := 1, lastRequestTime := now })

/-- The rate-limit check of `createLogFunc`
(script_runtime.go lines 368-381): same shape as `httpRateStep` with a
limit of 50; excess messages are dropped (the function returns undefined
instead of raising). -/
def logRateStep (sr : RateCounters) (now : Int) : Bool × RateCounters :=
  if now - sr.lastLogTime < 60 then
    let c := sr.logCount + 1
    if c > 50 then
      (false, { sr with logCount := c })
    else
      (true, { sr with logCount := c })
  else
    (true, { sr with logCount := 1, lastLogTime := now })

/-- Run a sequence of `utils.httpRequest` rate checks at the given call
times, returning for each call whether it passed. -/
def httpRateRun : RateCounters → List Int → List Bool
  | _, [] => []
  | sr, t :: ts =>
    let r := httpRateStep sr t
    r.1 :: httpRateRun r.2 ts

/-- Run a sequence of `utils.log` rate checks at the given call times,
returning for each message whether it was emitted. -/
def logRateRun : RateCounters → List Int → List Bool
  | _, [] => []
  | sr, t :: ts =>
    let r := logRateStep sr t
    r.1 :: logRateRun r.2 ts

/-! Basic stepping lemmas for the two counters. -/

theorem httpRateStep_inWindow (sr : RateCounters) (now : Int)
    (h : now < sr.lastRequestTime + 60) :
    httpRateStep sr now =
      (decide (sr.httpRequestCount + 1 ≤ 10),
        { sr with httpRequestCount := sr.httpRequestCount + 1 }) := by
  unfold httpRateStep
  rw [if_pos (by omega)]
  by_cases hc : sr.httpRequestCount + 1 > 10
  · rw [if_pos hc]
    have hd : decide (sr.httpRequestCount + 1 ≤ 10) = false := by
      simp only [decide_eq_false_iff_not]; omega
    rw [hd]
  · rw [if_neg hc]
    have hd : decide (sr.httpRequestCount + 1 ≤ 10) = true := by
      simp only [decide_eq_true_eq]; omega
    rw [hd]

theorem httpRateStep_reset (sr : RateCounters) (now : Int)
    (h : sr.lastRequestTime + 60 ≤ now) :
    httpRateStep sr now =
      (true, { sr with httpRequestCount := 1, lastRequestTime := now }) := by
  unfold httpRateStep
  rw [if_neg (by omega)]

theorem logRateStep_inWindow (sr : RateCounters) (now : Int)
    (h : now < sr.lastLogTime + 60) :
    logRateStep sr now =
      (decide (sr.logCount + 1 ≤ 50),
        { sr with logCount := sr.logCount + 1 }) := by
  unfold logRateStep
  rw [if_pos (by omega)]
  by_cases hc : sr.logCount + 1 > 50
  · rw [if_pos hc]
    have hd : decide (sr.logCount + 1 ≤ 50) = false := by
      simp only [decide_eq_false_iff_not]; omega
    rw [hd]
  · rw [if_neg hc]
    have hd : decide (sr.logCount + 1 ≤ 50) = true := by
      simp only [decide_eq_true_eq]; omega
    rw [hd]

/-- Within a window whose anchor never moves (every call time is less than
one minute after the anchor), the outputs of successive HTTP rate checks
are determined by the running counter alone. -/
theorem httpRateRun_window (ts : List Int) :
    ∀ sr : RateCounters, (∀ t ∈ ts, t < sr.lastRequestTime + 60) →
      httpRateRun sr ts =
        (List.range ts.length).map
          (fun i => decide (sr.httpRequestCount + i + 1 ≤ 10)) := by
  induction ts with
  | nil => intro sr _; rfl
  | cons t ts ih =>
    intro sr h
    have ht : t < sr.lastRequestTime + 60 := h t (by simp)
    have hstep := httpRateStep_inWindow sr t ht
    simp only [httpRateRun, hstep]
    have hrest := ih { sr with httpRequestCount := sr.httpRequestCount + 1 }
      (by intro u hu; simpa using h u (by simp [hu]))
    rw [hrest, List.length_cons, List.range_succ_eq_map, List.map_cons,
      List.map_map]
    refine congrArg₂ List.cons ?_ ?_
    · norm_num
    · apply List.map_congr_left
      intro i _
      simp only [Function.comp_apply]
      have hn : sr.httpRequestCount + 1 + i + 1 = sr.httpRequestCount + (i + 1) + 1 := by
        omega
      rw [hn]

/-- Count of passing calls in an anchored window: if every call time stays
within one minute of the anchor, at most `10 - c` further HTTP requests
pass when the counter already stands at `c`. -/
theorem httpRateRun_count_le (ts : List Int) :
    ∀ sr : RateCounters, (∀ t ∈ ts, t < sr.lastRequestTime + 60) →
      (httpRateRun sr ts).count true ≤ 10 - sr.httpRequestCount := by
  induction ts with
  | nil => intro sr _; simp [httpRateRun]
  | cons t ts ih =>
    intro sr h
    have ht : t < sr.lastRequestTime + 60 := h t (by simp)
    have hstep := httpRateStep_inWindow sr t ht
    simp only [httpRateRun, hstep]
    have hrest := ih { sr with httpRequestCount := sr.httpRequestCount + 1 }
      (by intro u hu; simpa using h u (by simp [hu]))
    simp only at hrest
    by_cases hc : sr.httpRequestCount + 1 ≤ 10
    · rw [decide_eq_true hc]
      simp only [List.count_cons_self]
      omega
    · rw [decide_eq_false hc]
      rw [List.count_cons_of_ne (by simp)]
      omega

/-- Log analogue of `httpRateRun_count_le`: at most `50 - c` further log
messages are emitted inside an anchored window. -/
theorem logRateRun_count_le (ts : List Int) :
    ∀ sr : RateCounters, (∀ t ∈ ts, t < sr.lastLogTime + 60) →
      (logRateRun sr ts).count true ≤ 50 - sr.logCount := by
  induction ts with
  | nil => intro sr _; simp [logRateRun]
  | cons t ts ih =>
    intro sr h
    have ht : t < sr.lastLogTime + 60 := h t (by simp)
    have hstep := logRateStep_inWindow sr t ht
    simp only [logRateRun, hstep]
    have hrest := ih { sr with logCount := sr.logCount + 1 }
      (by intro u hu; simpa using h u (by simp [hu]))
    simp only at hrest
    by_cases hc : sr.logCount + 1 ≤ 50
    · rw [decide_eq_true hc]
      simp only [List.count_cons_self]
      omega
    · rw [decide_eq_false hc]
      rw [List.count_cons_of_ne (by simp)]
      omega

/-- C7.  Starting from a freshly constructed instance, if eleven
`utils.httpRequest` calls are issued within 60 seconds (the first at any
realistic time, i.e. at least a minute after the zero anchor, and the rest
less than a minute later), the first ten pass the rate-limit check and the
eleventh is rejected with the rate-limit host error. -/
theorem httpRequest_first_ten_pass_eleventh_rejected
    (t1 : Int) (rest : List Int)
    (h1 : 60 ≤ t1) (hlen : rest.length = 10)
    (hwin : ∀ t ∈ rest, t < t1 + 60) :
    httpRateRun initialCounters (t1 :: rest) =
      List.replicate 10 true ++ [false] := by
  have hstep := httpRateStep_reset initialCounters t1 (by simp [initialCounters]; omega)
  simp only [httpRateRun, hstep]
  have hrun := httpRateRun_window rest
    { initialCounters with httpRequestCount := 1, lastRequestTime := t1 }
    (by intro t htmem; simpa using hwin t htmem)
  simp only at hrun
  rw [hrun, hlen]
  show true :: List.map (fun i => decide (1 + i + 1 ≤ 10)) (List.range 10)
      = List.replicate 10 true ++ [false]
  decide

/-- Closed witness for `httpRequest_first_ten_pass_eleventh_rejected`
at concrete call times. -/
theorem httpRequest_first_ten_pass_eleventh_rejected_witness :
    (60 ≤ (100 : Int)) ∧
    ([(101 : Int), 102, 103, 104, 105, 106, 107, 108, 109, 110].length = 10) ∧
    (∀ t ∈ [(101 : Int), 102, 103, 104, 105, 106, 107, 108, 109, 110], t < 100 + 60) ∧
    httpRateRun initialCounters
        (100 :: [(101 : Int), 102, 103, 104, 105, 106, 107, 108, 109, 110]) =
      List.replicate 10 true ++ [false] :=
  ⟨by decide, by decide, by decide,
    httpRequest_first_ten_pass_eleventh_rejected 100
      [101, 102, 103, 104, 105, 106, 107, 108, 109, 110]
      (by decide) (by decide) (by decide)⟩

/-- A concrete call-time trace refuting the sliding-window reading of the
rate limit: one call at time 100 anchors the window, nine more at 159
exhaust it, and because the anchor (not the last event) is what ages, the
call at 160 resets the window and nine further calls at 160 pass as well. -/
def slidingWindowTrace : List Int :=
  [100, 159, 159, 159, 159, 159, 159, 159, 159, 159,
   160, 160, 160, 160, 160, 160, 160, 160, 160, 160]

/-- The calls of a trace that fall inside the 60-second real-time window
starting at `lo`, paired with whether they passed the rate check. -/
def passesInWindow (lo : Int) (ts : List Int) : Nat :=
  ((ts.zip (httpRateRun initialCounters ts)).filter
    (fun p => decide (lo ≤ p.1) && decide (p.1 < lo + 60) && p.2)).length

/-- C3 counterexample.  On the concrete trace `slidingWindowTrace`, 19
calls pass the rate-limit check inside the single sliding 60-second window
`[159, 219)` (and the counters do not reset when the last event is older
than one minute — they reset when the anchor is).  This refutes the claim
that at most 10 `utils.httpRequest` calls pass per sliding 60-second
window. -/
theorem httpRateLimit_not_sliding_window :
    ¬ (passesInWindow 159 slidingWindowTrace ≤ 10) := by decide

/-- C3 (amended).  The limits are enforced per anchored window, not per
sliding window: a window opens when a call arrives at least one minute
after the previous anchor (the counter resets to 1 and the anchor moves),
and as long as subsequent events stay within one minute of the anchor, at
most 9 further HTTP requests pass (10 in total per window, counting the
anchoring call) and at most 49 further log messages are emitted (50 in
total per window); excess log messages are dropped. -/
theorem rateLimits_per_anchored_window (a : Int) (ts us : List Int)
    (hts : ∀ t ∈ ts, t < a + 60) (hus : ∀ t ∈ us, t < a + 60) :
    (httpRateRun
        { httpRequestCount := 1, lastRequestTime := a,
          logCount := 0, lastLogTime := 0 } ts).count true ≤ 9 ∧
    (logRateRun
        { httpRequestCount := 0, lastRequestTime := 0,
          logCount := 1, lastLogTime := a } us).count true ≤ 49 := by
  constructor
  · have := httpRateRun_count_le ts
      { httpRequestCount := 1, lastRequestTime := a,
        logCount := 0, lastLogTime := 0 } (by simpa using hts)
    simpa using this
  · have := logRateRun_count_le us
      { httpRequestCount := 0, lastRequestTime := 0,
        logCount := 1, lastLogTime := a } (by simpa using hus)
    simpa using this

/-- Closed witness for `rateLimits_per_anchored_window` at a concrete
anchor and concrete call times. -/
theorem rateLimits_per_anchored_window_witness :
    (∀ t ∈ [(100 : Int), 120], t < 100 + 60) ∧
    (∀ t ∈ [(130 : Int)], t < 100 + 60) ∧
    ((httpRateRun
        { httpRequestCount := 1, lastRequestTime := 100,
          logCount := 0, lastLogTime := 0 } [(100 : Int), 120]).count true ≤ 9 ∧
      (logRateRun
        { httpRequestCount := 0, lastRequestTime := 0,
          logCount := 1, lastLogTime := 100 } [(130 : Int)]).count true ≤ 49) :=
  ⟨by decide, by decide,
    rateLimits_per_anchored_window 100 [100, 120] [130] (by decide) (by decide)⟩

/-! ## Header maps and the `modifyRequest` reapplication

`ScriptChannel.ModifyRequest` (script_runtime.go lines 592-651) hands the
adapter a snapshot of the outbound request and, after the hook returns,
iterates the keys of the hook's `headers` object and writes each entry
onto the outbound request with `req.Header.Set(key, value)`.  Go's
`http.Header.Set` stores a single value under the canonical MIME form of
the key.  We model a header map as an association list from canonical
keys to their first value. -/

/-- A byte valid inside an HTTP header field name, after Go's
`net/textproto` `validHeaderFieldByte`: letters, digits and the RFC 7230
token specials. -/
def isTokenChar (c : Char) : Bool :=
  let n := c.toNat
  (48 ≤ n && n ≤ 57) || (65 ≤ n && n ≤ 90) || (97 ≤ n && n ≤ 122) ||
    [33, 35, 36, 37, 38, 39, 42, 43, 45, 46, 94, 95, 96, 124, 126].contains n

/-- The canonicalisation loop of Go's
`textproto.CanonicalMIMEHeaderKey`: uppercase at the start and after each
hyphen, lowercase elsewhere.  `upper` is the carried flag. -/
def canonicalChars (upper : Bool) : List Char → List Char
  | [] => []
  | c :: cs =>
    let c' := if upper then c.toUpper else c.toLower
    c' :: canonicalChars (c' == '-') cs

/-- Go's `textproto.CanonicalMIMEHeaderKey` (used by `http.Header.Set`
and `http.Header.Get`): a key containing a byte that is not a valid
header-field byte is returned unchanged; otherwise it is canonicalised. -/
def canonicalMIMEHeaderKey (s : String) : String :=
  if s.toList.any (fun c => !isTokenChar c) then s
  else String.mk (canonicalChars true s.toList)

/-- An outbound `http.Header`, as an association list from canonical key
to the first stored value (Go `Header.Get` returns the first value of the
slice; `Header.Set` replaces the whole slice by a single value). -/
abbrev HttpHeader := List (String × String)

/-- Go `http.Header.Set`: store `value` as the single value under the
canonical form of `key`. -/
def headerSet (h : HttpHeader) (key value : String) : HttpHeader :=
  let ck := canonicalMIMEHeaderKey key
  (ck, value) :: h.filter (fun p => p.1 != ck)

/-- Go `http.Header.Get`: the first value stored under the canonical form
of `key`, if any. -/
def headerGet (h : HttpHeader) (key : String) : Option String :=
  (h.find? (fun p => p.1 == canonicalMIMEHeaderKey key)).map Prod.snd

/-- The header-value gate of `ScriptRuntime.isValidHeaderValue`
(script_runtime.go lines 459-489): the denylisted names it rejects. -/
def dangerousHeaders : List String :=
  ["host", "connection", "upgrade", "proxy-connection",
   "proxy-authenticate", "proxy-authorization", "te", "trailers",
   "transfer-encoding", "content-length"]

/-- Go `strings.ToLower` restricted to the rune-wise mapping (identity on
everything but uppercase letters for the ASCII keys involved here). -/
def lowerString (s : String) : String :=
  String.mk (s.toList.map Char.toLower)

/-- `ScriptRuntime.isValidHeaderValue` (script_runtime.go lines 459-489):
rejects values longer than 8192 bytes, any denylisted (lowercased) header
name, and any value character outside `[32,126]` other than tab.  This
gate is consulted only by `createHTTPRequestFunc` when the adapter calls
`utils.httpRequest` — not by `ModifyRequest`'s reapplication loop. -/
def isValidHeaderValue (key value : String) : Bool :=
  if value.utf8ByteSize > 8192 then false
  else if dangerousHeaders.contains (lowerString key) then false
  else value.toList.all (fun c => (32 ≤ c.toNat && c.toNat ≤ 126) || c == '\t')

/-- The reapplication loop at the end of `ScriptChannel.ModifyRequest`
(script_runtime.go lines 643-650): every key of the hook's `headers`
object is written onto the outbound request with `req.Header.Set`,
unconditionally — no validity or denylist check is performed here. -/
def modifyRequestApplyHeaders (outbound : HttpHeader)
    (hookHeaders : List (String × String)) : HttpHeader :=
  hookHeaders.foldl (fun h kv => headerSet h kv.1 kv.2) outbound

/-- C1 counterexample.  `Transfer-Encoding` is in the §4.2 denylist
(`isValidHeaderValue` rejects it), yet when the adapter's `modifyRequest`
hook writes `Transfer-Encoding: chunked`, the reapplication loop copies
it onto the outbound request, changing the outbound value from its
pre-hook value (absent) — the claim that denylisted adapter-written
headers leave the outbound value unchanged is false. -/
theorem modifyRequest_applies_denylisted_header :
    isValidHeaderValue "Transfer-Encoding" "chunked" = false ∧
    ¬ (headerGet (modifyRequestApplyHeaders []
          [("Transfer-Encoding", "chunked")]) "Transfer-Encoding" =
        headerGet ([] : HttpHeader) "Transfer-Encoding") := by
  constructor
  · decide
  · decide

theorem headerGet_headerSet_self (h : HttpHeader) (k v : String) :
    headerGet (headerSet h k v) k = some v := by
  simp [headerGet, headerSet]

theorem headerGet_headerSet_other (h : HttpHeader) (k k' v' : String)
    (hne : canonicalMIMEHeaderKey k' ≠ canonicalMIMEHeaderKey k) :
    headerGet (headerSet h k' v') k = headerGet h k := by
  unfold headerGet headerSet
  have hb : (canonicalMIMEHeaderKey k' == canonicalMIMEHeaderKey k) = false := by
    simpa using hne
  simp only [List.find?_cons, hb]
  congr 1
  induction h with
  | nil => rfl
  | cons p t ih =>
    by_cases hp : p.1 = canonicalMIMEHeaderKey k'
    · have h1 : (p.1 != canonicalMIMEHeaderKey k') = false := by simp [hp]
      have h2 : (p.1 == canonicalMIMEHeaderKey k) = false := by
        simp only [beq_eq_false_iff_ne, ne_eq]
        intro hh
        exact hne (hp ▸ hh)
      simp only [List.filter_cons, h1, Bool.false_eq_true, if_false,
        List.find?_cons, h2]
      exact ih
    · have h1 : (p.1 != canonicalMIMEHeaderKey k') = true := by simp [hp]
      simp only [List.filter_cons, h1, if_true, List.find?_cons]
      cases hk : (p.1 == canonicalMIMEHeaderKey k) with
      | true => rfl
      | false => exact ih

theorem headerGet_applyHeaders_untouched (k : String)
    (post : List (String × String))
    (hpost : ∀ p ∈ post,
      canonicalMIMEHeaderKey p.1 ≠ canonicalMIMEHeaderKey k) :
    ∀ h : HttpHeader,
      headerGet (modifyRequestApplyHeaders h post) k = headerGet h k := by
  induction post with
  | nil => intro h; rfl
  | cons q t ih =>
    intro h
    have hq := hpost q (by simp)
    simp only [modifyRequestApplyHeaders, List.foldl_cons]
    have := ih (fun p hp => hpost p (by simp [hp]))
      (headerSet h q.1 q.2)
    simpa [modifyRequestApplyHeaders] using
      this.trans (headerGet_headerSet_other h k q.1 q.2 hq)

/-- C1 (amended).  After `modifyRequest` returns, every entry of the
hook's header map — denylisted names included — is written onto the
outbound request via `Set`; the last write for a given canonical name
wins, and no name is dropped.  (The §4.2 denylist of
`isValidHeaderValue` is applied only inside `utils.httpRequest`.) -/
theorem modifyRequest_reapplies_every_header
    (outbound : HttpHeader) (pre post : List (String × String))
    (k v : String)
    (hpost : ∀ p ∈ post,
      canonicalMIMEHeaderKey p.1 ≠ canonicalMIMEHeaderKey k) :
    headerGet (modifyRequestApplyHeaders outbound (pre ++ (k, v) :: post)) k
      = some v := by
  have hsplit : modifyRequestApplyHeaders outbound (pre ++ (k, v) :: post)
      = modifyRequestApplyHeaders
          (headerSet (modifyRequestApplyHeaders outbound pre) k v) post := by
    simp [modifyRequestApplyHeaders, List.foldl_append]
  rw [hsplit, headerGet_applyHeaders_untouched k post hpost,
    headerGet_headerSet_self]

/-- Closed witness for `modifyRequest_reapplies_every_header`: the
denylisted `Content-Length` header written by the hook lands on the
outbound request. -/
theorem modifyRequest_reapplies_every_header_witness :
    (∀ p ∈ ([] : List (String × String)),
      canonicalMIMEHeaderKey p.1 ≠ canonicalMIMEHeaderKey "Content-Length") ∧
    headerGet (modifyRequestApplyHeaders [("Accept", "*/*")]
        ([] ++ ("Content-Length", "0") :: [])) "Content-Length" = some "0" :=
  ⟨by simp,
    modifyRequest_reapplies_every_header [("Accept", "*/*")] [] []
      "Content-Length" "0" (by simp)⟩

/-! ## JavaScript values and `IsStreamRequest`

`ScriptChannel.IsStreamRequest` (script_runtime.go lines 654-703) calls
the adapter's `isStreamRequest` hook and converts whatever goja value it
returns with `result.ToBoolean()`.  Values are modelled by their ECMA
type; numbers are modelled as integers (float NaN subtleties are out of
scope — every value the claims mention is covered). -/

inductive JSValue where
  | undefined
  | null
  | bool (b : Bool)
  | num (n : Int)
  | str (s : String)
  | object
  deriving DecidableEq, Repr

/-- goja's `Value.ToBoolean`, the ECMAScript `ToBoolean` coercion:
`undefined`, `null`, `false`, zero and the empty string are falsy;
everything else (objects included) is truthy. -/
def toBoolean : JSValue → Bool
  | .undefined => false
  | .null => false
  | .bool b => b
  | .num n => n != 0
  | .str s => s != ""
  | .object => true

/-- The possible outcomes of the host looking up and calling the
adapter's `isStreamRequest` member (script_runtime.go lines 656-701):
the member may be absent, not a function, throw, or return a value. -/
inductive HookCallOutcome where
  | missing
  | notFunction
  | threw
  | returned (v : JSValue)
  deriving DecidableEq, Repr

/-- `ScriptChannel.IsStreamRequest` (script_runtime.go lines 654-703):
absent or non-function member → `false`; the call throwing → `false`;
otherwise the returned value is coerced with `ToBoolean`. -/
def isStreamRequestResult : HookCallOutcome → Bool
  | .missing => false
  | .notFunction => false
  | .threw => false
  | .returned v => toBoolean v

/-- C8 counterexample.  The string `"yes"` is not a boolean, yet when the
`isStreamRequest` hook returns it, the host-side result is `true`, not
`false` as the claim states: non-boolean returns are coerced with
JavaScript truthiness rather than treated as `false`. -/
theorem isStreamRequest_nonBoolean_not_false :
    JSValue.str "yes" ≠ JSValue.bool true ∧
    JSValue.str "yes" ≠ JSValue.bool false ∧
    ¬ (isStreamRequestResult (.returned (.str "yes")) = false) := by
  refine ⟨by decide, by decide, by decide⟩

/-- C8 (amended).  The host-side `IsStreamRequest` result is `true`
exactly when the hook call returned a value whose ECMAScript `ToBoolean`
coercion is `true`; a missing or non-function member and a throwing call
yield `false`, and non-boolean returns follow JavaScript truthiness. -/
theorem isStreamRequest_result_characterisation (o : HookCallOutcome) :
    isStreamRequestResult o = true ↔
      ∃ v, o = .returned v ∧ toBoolean v = true := by
  cases o with
  | missing => simp [isStreamRequestResult]
  | notFunction => simp [isStreamRequestResult]
  | threw => simp [isStreamRequestResult]
  | returned v =>
    simp only [isStreamRequestResult]
    constructor
    · intro hv
      exact ⟨v, rfl, hv⟩
    · rintro ⟨w, hw, hb⟩
      cases hw
      exact hb

/-! ## Security validator

`ScriptSecurityValidator` (internal/services/script_service.go lines
278-509).  The two external engines it drives — Go's `regexp` package and
the goja VM — are outside this repository; they enter the embedding as an
oracle record `HostEngines`, so every theorem below holds for an
arbitrary (deterministic) behaviour of those engines, and closed
witnesses instantiate them with concrete functions. -/

/-- A single apostrophe, used verbatim inside several error messages of
the source. -/
def squoteChar : String := String.mk [Char.ofNat 39]

/-- Wrap a string in apostrophes, as the source's format strings do. -/
def squote (s : String) : String := squoteChar ++ s ++ squoteChar

/-- External engines used by the validator and the runtime loader:
`matchString pattern s` is Go `regexp.MatchString` (errors are possible
for an invalid pattern); `countFunctionDefs` is the number of matches of
the fixed regex for named function definitions
(script_service.go line 414); `topLevelRun` is `goja.RunString` of the
whole source on a fresh `goja.New()` VM followed by nothing
(`validateSyntax`, lines 423-433); `structureRun` is the run-plus-export
shape check of `validateStructure` (lines 436-509); `loadRuntime` is the
production-side `NewScriptRuntime` + `exports()` outcome for a source
(script_runtime.go lines 35-61 and 512-548). -/
structure HostEngines where
  matchString : String → String → Except String Bool
  countFunctionDefs : String → Nat
  topLevelRun : String → Except String Unit
  structureRun : String → Except String Unit
  loadRuntime : String → Except String Unit

/-- The validator's state: the fixed pattern denylist and size cap
(script_service.go lines 279-284). -/
structure ScriptSecurityValidator where
  forbiddenPatterns : List String
  maxScriptSize : Nat
  deriving DecidableEq, Repr

/-- `NewScriptSecurityValidator` (script_service.go lines 287-351): the
fixed list of forbidden textual patterns, in source order, and the 1 MiB
size cap. -/
def NewScriptSecurityValidator : ScriptSecurityValidator where
  forbiddenPatterns :=
    ["eval\\s*\\(", "Function\\s*\\(", "setTimeout\\s*\\(",
     "setInterval\\s*\\(", "setImmediate\\s*\\(", "require\\s*\\(",
     "import\\s+.*from", "import\\s*\\(", "process\\.", "global\\.",
     "globalThis\\.", "window\\.", "document\\.", "location\\.",
     "navigator\\.", "XMLHttpRequest", "fetch\\s*\\(", "WebSocket",
     "Worker\\s*\\(", "SharedWorker\\s*\\(", "ServiceWorker",
     "localStorage", "sessionStorage", "indexedDB", "crypto\\.subtle",
     "performance\\.", "console\\.trace", "console\\.profile",
     "debugger", "__proto__", "constructor\\.constructor",
     "\\.call\\s*\\(\\s*null", "\\.apply\\s*\\(\\s*null",
     "\\.bind\\s*\\(\\s*null", "fs\\.", "path\\.", "os\\.",
     "child_process", "cluster\\.", "net\\.", "http\\.", "https\\.",
     "url\\.", "querystring\\.", "new\\s+Function",
     "\\.constructor\\s*\\(", "String\\.fromCharCode",
     "String\\.fromCodePoint", "unescape\\s*\\(", "decodeURI\\s*\\(",
     "decodeURIComponent\\s*\\(", "while\\s*\\(\\s*true\\s*\\)",
     "for\\s*\\(\\s*;\\s*;\\s*\\)", "setInterval\\s*\\(\\s*.*,\\s*0\\s*\\)"]
  maxScriptSize := 1024 * 1024

/-- The forbidden-pattern loop (script_service.go lines 361-369): the
first pattern that matches is reported; a pattern whose compilation
errors is skipped. -/
def findForbiddenPattern (E : HostEngines) :
    List String → String → Option String
  | [], _ => none
  | p :: ps, s =>
    match E.matchString p s with
    | .ok true => some p
    | _ => findForbiddenPattern E ps s

/-- Go `strings.Split(script, "\n")`, written as structural recursion on
the character list so that it evaluates inside the kernel. -/
def splitLinesAux : List Char → List Char → List String
  | [], acc => [String.mk acc.reverse]
  | c :: cs, acc =>
    if c = '\n' then String.mk acc.reverse :: splitLinesAux cs []
    else splitLinesAux cs (c :: acc)

def splitLines (s : String) : List String := splitLinesAux s.toList []

/-- The nesting loop of `validateComplexity` (script_service.go lines
398-411): per line, add the brace balance, track the running maximum and
abort once it exceeds 20. -/
def nestingCheckLoop : List String → Int → Int → Except String Unit
  | [], _, _ => .ok ()
  | line :: rest, currentNesting, maxNesting =>
    let current := currentNesting +
      (line.toList.count (Char.ofNat 123) : Int) -
      (line.toList.count (Char.ofNat 125) : Int)
    let maxN := if current > maxNesting then current else maxNesting
    if maxN > 20 then
      .error ("script too complex: excessive nesting depth (" ++
        toString maxN ++ " levels)")
    else nestingCheckLoop rest current maxN

/-- `validateComplexity` (script_service.go lines 390-420): line count
≤ 10000, brace-nesting depth ≤ 20, named function definitions ≤ 100. -/
def validateComplexity (E : HostEngines) (script : String) :
    Except String Unit :=
  let lines := splitLines script
  if lines.length > 10000 then
    .error ("script too complex: " ++ toString lines.length ++
      " lines (max 10000)")
  else
    match nestingCheckLoop lines 0 0 with
    | .error e => .error e
    | .ok _ =>
      let functionCount := E.countFunctionDefs script
      if functionCount > 100 then
        .error ("script too complex: too many functions (" ++
          toString functionCount ++ ", max 100)")
      else .ok ()

/-- `ScriptSecurityValidator.ValidateScript` (script_service.go lines
354-387): size cap, forbidden patterns, complexity caps, then the two
fresh-VM runs of `validateSyntax` and `validateStructure`. -/
def ValidateScript (E : HostEngines) (v : ScriptSecurityValidator)
    (script : String) : Except String Unit :=
  if script.utf8ByteSize > v.maxScriptSize then
    .error ("script too large: " ++ toString script.utf8ByteSize ++
      " bytes (max " ++ toString v.maxScriptSize ++ " bytes)")
  else
    match findForbiddenPattern E v.forbiddenPatterns script with
    | some p => .error ("script contains forbidden pattern: " ++ p)
    | none =>
      match validateComplexity E script with
      | .error e => .error e
      | .ok _ =>
        match E.topLevelRun script with
        | .error e => .error ("syntax error: " ++ e)
        | .ok _ =>
          match E.structureRun script with
          | .error e => .error e
          | .ok _ => .ok ()

/-- `ValidateScript` with the receiver threaded through explicitly: the
Go method has a pointer receiver and the translation makes its (absence
of) mutation visible — the validator state that comes out is the state
that went in. -/
def ValidateScriptSt (E : HostEngines) (v : ScriptSecurityValidator)
    (script : String) : Except String Unit × ScriptSecurityValidator :=
  (ValidateScript E v script, v)

/-- Run a sequence of validations on the same validator object,
returning the final validator state. -/
def validateSeq (E : HostEngines) (v : ScriptSecurityValidator) :
    List String → ScriptSecurityValidator
  | [] => v
  | s :: ss => validateSeq E (ValidateScriptSt E v s).2 ss

theorem validateSeq_id (E : HostEngines) (ss : List String) :
    ∀ v : ScriptSecurityValidator, validateSeq E v ss = v := by
  induction ss with
  | nil => intro v; rfl
  | cons s ss ih => intro v; simpa [validateSeq, ValidateScriptSt] using ih v

/-- C9.  The validator is stateless and deterministic: for a fixed
behaviour of the external engines, validating a source after any
sequence of prior validations yields exactly the same outcome (accept or
reject, with the same reason) as validating it on a fresh validator, and
no validation alters the validator's state.  (The validator consumes
only the source text; the metadata of the pair is not read, so the
result is independent of it as well.) -/
theorem ValidateScript_stateless_deterministic (E : HostEngines)
    (prior : List String) (s : String) :
    (ValidateScriptSt E (validateSeq E NewScriptSecurityValidator prior) s).1
        = (ValidateScriptSt E NewScriptSecurityValidator s).1 ∧
      (ValidateScriptSt E
          (validateSeq E NewScriptSecurityValidator prior) s).2
        = NewScriptSecurityValidator := by
  rw [validateSeq_id]
  exact ⟨rfl, rfl⟩

/-! ## Catalogue service

`ScriptService` (internal/services/script_service.go lines 12-267) over
the persisted catalogue.  The relational store is modelled as the list
of rows; `models.ChannelScript` itself is declared outside the provided
sources, so its persisted shape is taken from the specification
(§3, §6.3). -/

/-- Modelled from the spec: the `models.ChannelScript` catalogue row
(its Go declaration is not under the provided sources).  Fields follow
§3 and §6.3: identity, binding, source, lifecycle status, error message
and the update timestamp used for version hashes.  `channel_type` is
unique across the catalogue. -/
structure ChannelScript where
  id : Nat
  name : String
  channelType : String
  script : String
  version : String
  status : String
  errorMsg : String
  updatedAt : Nat
  deriving DecidableEq, Repr

/-- The catalogue table: a list of rows in primary-key order. -/
abbrev ScriptDB := List ChannelScript

/-- `validateScriptSyntax` (script_service.go lines 242-249) wraps the
security validator's error. -/
def validateScriptSrc (E : HostEngines) (script : String) :
    Except String Unit :=
  match ValidateScript E NewScriptSecurityValidator script with
  | .error e => .error ("security validation failed: " ++ e)
  | .ok _ => .ok ()

/-- `ScriptService.CreateScript` (script_service.go lines 54-73):
validate the source, reject if any existing row (whatever its status)
already uses the channel type, otherwise insert. -/
def CreateScript (E : HostEngines) (db : ScriptDB) (script : ChannelScript) :
    Except String ChannelScript × ScriptDB :=
  match validateScriptSrc E script.script with
  | .error e => (.error ("script validation failed: " ++ e), db)
  | .ok _ =>
    match db.find? (fun r => r.channelType == script.channelType) with
    | some _ =>
      (.error ("channel type " ++ squote script.channelType ++
        " already exists"), db)
    | none => (.ok script, db ++ [script])

/-- A patch as submitted to `ScriptService.UpdateScript`; optional fields
mirror the updatable columns. -/
structure ScriptPatch where
  name : Option String := none
  version : Option String := none
  script : Option String := none
  channelType : Option String := none
  deriving DecidableEq, Repr

/-- The row that results from applying a patch's present fields. -/
def applyPatch (r : ChannelScript) (p : ScriptPatch) : ChannelScript :=
  { r with
    name := p.name.getD r.name
    version := p.version.getD r.version
    script := p.script.getD r.script
    channelType := p.channelType.getD r.channelType }

/-- Modelled from the spec: the gorm `Updates` call against the
catalogue table.  §6.3 declares uniqueness on `channel_type` (the
`models.ChannelScript` declaration carrying the constraint is outside
the provided sources), so an update that would leave two rows with the
same `channel_type` fails at the store and persists nothing; otherwise
the row is rewritten in place. -/
def dbUpdates (db : ScriptDB) (id : Nat) (p : ScriptPatch) :
    Except String ScriptDB :=
  match db.find? (fun r => r.id == id) with
  | none => .error "record not found"
  | some r =>
    let r' := applyPatch r p
    if db.any (fun o => o.id != id && o.channelType == r'.channelType) then
      .error "UNIQUE constraint failed: channel_type"
    else
      .ok (db.map (fun o => if o.id == id then applyPatch o p else o))

/-- `ScriptService.UpdateScript` (script_service.go lines 76-100): fetch
the row, re-validate when the patch carries a new source, then persist
through the store's `Updates`. -/
def UpdateScript (E : HostEngines) (db : ScriptDB) (id : Nat)
    (p : ScriptPatch) : Except String ChannelScript × ScriptDB :=
  match db.find? (fun r => r.id == id) with
  | none => (.error "record not found", db)
  | some script =>
    let persist : Except String ChannelScript × ScriptDB :=
      match dbUpdates db id p with
      | .error e => (.error e, db)
      | .ok db' => (.ok (applyPatch script p), db')
    match p.script with
    | some newScript =>
      match validateScriptSrc E newScript with
      | .error e => (.error ("script validation failed: " ++ e), db)
      | .ok _ => persist
    | none => persist

/-- C4.  `UpdateScript` rejects — returns an error and persists
nothing — any patch that changes the row's `channel_type` to one already
used by another row: either the re-validation of a patched source fails
first, or the store's uniqueness constraint on `channel_type` refuses
the write.  (The service itself performs no collision check; the
rejection rests on the spec-modelled unique constraint of §6.3.) -/
theorem UpdateScript_rejects_channelType_collision (E : HostEngines)
    (db : ScriptDB) (id : Nat) (p : ScriptPatch)
    (cur other : ChannelScript) (ct : String)
    (hcur : db.find? (fun r => r.id == id) = some cur)
    (hp : p.channelType = some ct)
    (hother : other ∈ db) (hoid : other.id ≠ id)
    (hoct : other.channelType = ct) :
    (∃ e, (UpdateScript E db id p).1 = .error e) ∧
      (UpdateScript E db id p).2 = db := by
  have hcollide :
      db.any (fun o => o.id != id && o.channelType ==
        (applyPatch cur p).channelType) = true := by
    rw [List.any_eq_true]
    refine ⟨other, hother, ?_⟩
    have h1 : (other.id != id) = true := by simpa using hoid
    have h2 : (other.channelType ==
        (applyPatch cur p).channelType) = true := by
      simp [applyPatch, hp, hoct]
    simp [h1, h2]
  have hupd : dbUpdates db id p = .error "UNIQUE constraint failed: channel_type" := by
    unfold dbUpdates
    rw [hcur]
    simp only [hcollide, if_true]
  unfold UpdateScript
  rw [hcur]
  cases hps : p.script with
  | none =>
    simp only [hps, hupd]
    exact ⟨⟨"UNIQUE constraint failed: channel_type", rfl⟩, by trivial⟩
  | some s =>
    simp only [hps]
    cases hval : validateScriptSrc E s with
    | error e =>
      exact ⟨⟨"script validation failed: " ++ e, rfl⟩, by trivial⟩
    | ok u =>
      simp only [hupd]
      exact ⟨⟨"UNIQUE constraint failed: channel_type", rfl⟩, by trivial⟩

/-- Concrete engines for closed witnesses: a regexp engine that reports
no match anywhere and a VM in which every run succeeds.  (Used only to
evaluate the pipelines at concrete inputs whose real-world behaviour is
exactly that: sources containing no forbidden pattern and executing
without error.) -/
def benignEngines : HostEngines where
  matchString := fun _ _ => .ok false
  countFunctionDefs := fun _ => 0
  topLevelRun := fun _ => .ok ()
  structureRun := fun _ => .ok ()
  loadRuntime := fun _ => .ok ()

/-- A small catalogue row used by closed witnesses. -/
def grokRow : ChannelScript where
  id := 1
  name := "grok-channel"
  channelType := "grok"
  script := "function exports() 1"
  version := "1.0.0"
  status := "disabled"
  errorMsg := ""
  updatedAt := 10

/-- A second row whose patch will collide with `grokRow`. -/
def otherRow : ChannelScript where
  id := 2
  name := "other-channel"
  channelType := "other"
  script := "function exports() 2"
  version := "1.0.0"
  status := "disabled"
  errorMsg := ""
  updatedAt := 11

/-- Closed witness for `UpdateScript_rejects_channelType_collision`:
patching row 2's channel type to `grok` while row 1 owns `grok` errors
and leaves the catalogue unchanged. -/
theorem UpdateScript_rejects_channelType_collision_witness :
    ([grokRow, otherRow].find? (fun r => r.id == 2) = some otherRow) ∧
    (({ channelType := some "grok" } : ScriptPatch).channelType
      = some "grok") ∧
    (grokRow ∈ [grokRow, otherRow]) ∧ (grokRow.id ≠ 2) ∧
    (grokRow.channelType = "grok") ∧
    ((∃ e, (UpdateScript benignEngines [grokRow, otherRow] 2
        { channelType := some "grok" }).1 = .error e) ∧
      (UpdateScript benignEngines [grokRow, otherRow] 2
        { channelType := some "grok" }).2 = [grokRow, otherRow]) :=
  ⟨by decide, by decide, by decide, by decide, by decide,
    UpdateScript_rejects_channelType_collision benignEngines
      [grokRow, otherRow] 2 { channelType := some "grok" }
      otherRow grokRow "grok"
      (by decide) (by decide) (by decide) (by decide) (by decide)⟩

/-! ## Admin handler for script creation

`ScriptHandler.CreateScript` (internal/handler/script_handler.go lines
62-118).  The `internal/response` and `internal/errors` packages are not
under the provided sources; per §6.1 the error envelope carries an HTTP
status per error kind (400 validation, 404 not found, 500 internal) and
the message passed to `NewAPIError`. -/

/-- Modelled from the spec: the JSON error/success envelope written by
`internal/response` (§6.1) — the HTTP status chosen by the error kind
and the message handed to `NewAPIError`. -/
structure APIResponse where
  status : Nat
  message : String
  deriving DecidableEq, Repr

/-- `ScriptHandler.CreateScript` (script_handler.go lines 62-118) after
a successful JSON bind: the row is built with `Status := "disabled"` and
handed to the service; ANY service error is mapped to
`ErrInternalServer` with the fixed message "Failed to create script"
(line 113) — the service's own message is only logged. -/
def handlerCreateScript (E : HostEngines) (db : ScriptDB)
    (req : ChannelScript) : APIResponse × ScriptDB :=
  let script := { req with status := "disabled" }
  match CreateScript E db script with
  | (.error _, db') => ({ status := 500, message := "Failed to create script" }, db')
  | (.ok _, db') => ({ status := 200, message := "success" }, db')

/-- The admin request of scenario 6: create a second `grok` row. -/
def grokCreateReq : ChannelScript where
  id := 9
  name := "grok-two"
  channelType := "grok"
  script := "function exports() 3"
  version := "2.0.0"
  status := ""
  errorMsg := ""
  updatedAt := 20

/-- C5 counterexample.  Creating a script whose `channel_type` `grok` is
already taken fails without persisting, but the admin client receives
HTTP 500 with the generic message "Failed to create script", not HTTP
400 with "channel type 'grok' already exists" — the service's message is
discarded by the handler. -/
theorem createScript_duplicate_not_400_with_message :
    ¬ ((handlerCreateScript benignEngines [grokRow] grokCreateReq).1.status
          = 400 ∧
        (handlerCreateScript benignEngines [grokRow] grokCreateReq).1.message
          = "channel type " ++ squote "grok" ++ " already exists") := by
  decide

/-- C5 (amended).  Creating a catalogue entry whose `channel_type` is
already used by an existing entry fails without persisting; the service
error carries the message "channel type '<type>' already exists", but
the handler surfaces HTTP 500 with the generic message
"Failed to create script" to the admin client, logging the specific
message instead of returning it. -/
theorem createScript_duplicate_channelType (E : HostEngines)
    (db : ScriptDB) (req : ChannelScript)
    (hvalid : validateScriptSrc E req.script = .ok ())
    (hdup : (db.find?
      (fun r => r.channelType == req.channelType)).isSome = true) :
    (CreateScript E db { req with status := "disabled" }).1
        = .error ("channel type " ++ squote req.channelType ++
            " already exists") ∧
      (CreateScript E db { req with status := "disabled" }).2 = db ∧
      (handlerCreateScript E db req).1
        = { status := 500, message := "Failed to create script" } ∧
      (handlerCreateScript E db req).2 = db := by
  obtain ⟨r, hr⟩ := Option.isSome_iff_exists.mp hdup
  have hcreate :
      CreateScript E db { req with status := "disabled" }
        = (.error ("channel type " ++ squote req.channelType ++
            " already exists"), db) := by
    unfold CreateScript
    simp only [hvalid, hr]
  refine ⟨by rw [hcreate], by rw [hcreate], ?_, ?_⟩
  · simp only [handlerCreateScript, hcreate]
  · simp only [handlerCreateScript, hcreate]

/-- Closed witness for `createScript_duplicate_channelType` at the
scenario-6 input. -/
theorem createScript_duplicate_channelType_witness :
    (validateScriptSrc benignEngines grokCreateReq.script = .ok ()) ∧
    (([grokRow].find?
      (fun r => r.channelType == grokCreateReq.channelType)).isSome = true) ∧
    ((CreateScript benignEngines [grokRow]
        { grokCreateReq with status := "disabled" }).1
        = .error ("channel type " ++ squote grokCreateReq.channelType ++
            " already exists") ∧
      (CreateScript benignEngines [grokRow]
        { grokCreateReq with status := "disabled" }).2 = [grokRow] ∧
      (handlerCreateScript benignEngines [grokRow] grokCreateReq).1
        = { status := 500, message := "Failed to create script" } ∧
      (handlerCreateScript benignEngines [grokRow] grokCreateReq).2
        = [grokRow]) :=
  ⟨by rfl, by decide,
    createScript_duplicate_channelType benignEngines [grokRow] grokCreateReq
      (by rfl) (by decide)⟩

/-! ## Channel factory and reload controller

`Factory` (the channel factory source file: `GetChannel`,
`createScriptChannel`, `InvalidateCache`, `RegisterDynamicChannel`,
`UnregisterDynamicChannel`) and `ScriptManager`
(internal/services/script_service.go lines 524-757). -/

/-- The group fields the factory reads: identity, channel binding, the
effective-config identity used by the staleness check, and whether the
group's upstream list unmarshals to a non-empty well-formed list
(condensing `newBaseChannel`'s upstream checks, which the claims do not
inspect further). -/
structure Group where
  id : Nat
  channelType : String
  configHash : Nat
  upstreamsOk : Bool
  deriving DecidableEq, Repr

/-- A cached channel instance: its channel type, the catalogue row it
was compiled from (`none` for a static built-in), and the config
identity of the group at construction time. -/
structure ChannelInstance where
  channelType : String
  sourceScript : Option ChannelScript
  configHash : Nat
  deriving DecidableEq, Repr

/-- `NewScriptChannel` (script_runtime.go lines 512-548): build the base
channel from the group's upstreams, then compile the script source into
a fresh runtime (`NewScriptRuntime` + the `exports()` call, whose
outcome is the `loadRuntime` engine), and bind the pair. -/
def NewScriptChannelRun (E : HostEngines) (g : Group) (s : ChannelScript) :
    Except String ChannelInstance :=
  if !g.upstreamsOk then
    .error ("at least one upstream is required for " ++ s.channelType ++
      " channel")
  else
    match E.loadRuntime s.script with
    | .error e => .error ("failed to create script runtime: " ++ e)
    | .ok _ =>
      .ok { channelType := s.channelType, sourceScript := some s,
            configHash := g.configHash }

/-- A static built-in constructor from `channelRegistry`: it shares the
`newBaseChannel` upstream checks and otherwise yields a built-in
instance. -/
def newStaticChannel (g : Group) : Except String ChannelInstance :=
  if !g.upstreamsOk then
    .error ("at least one upstream is required for " ++ g.channelType ++
      " channel")
  else
    .ok { channelType := g.channelType, sourceScript := none,
          configHash := g.configHash }

/-- The factory's mutable state: the per-group instance cache, the
runtime-mutable dynamic constructor table (each registered constructor
closes over the catalogue row it was built from, as the closure in
`ScriptManager.loadScript` does), and the static registry's key set. -/
structure FactoryState where
  channelCache : List (Nat × ChannelInstance)
  dynamicChannels : List (String × ChannelScript)
  staticChannels : List String
  deriving DecidableEq, Repr

/-- Map insertion for the instance cache (`f.channelCache[group.ID] =
channel`). -/
def cacheSet (cache : List (Nat × ChannelInstance)) (id : Nat)
    (c : ChannelInstance) : List (Nat × ChannelInstance) :=
  (id, c) :: cache.filter (fun p => p.1 != id)

/-- `createScriptChannel`'s error-marking update: set the row's status
to `error` with the creation failure message (factory source lines
128-134). -/
def markScriptError (db : ScriptDB) (id : Nat) (msg : String) : ScriptDB :=
  db.map (fun r =>
    if r.id == id then { r with status := "error", errorMsg := msg } else r)

/-- The creation path of `Factory.GetChannel` (factory source lines
77-110) once the cache has been bypassed: dynamic constructor first,
then the static registry, then `createScriptChannel`'s last-resort
lookup of an enabled catalogue row (lines 113-140), which marks the row
`error` when instance creation fails.  Returns the result, the new
factory state and the new catalogue. -/
def createChannel (E : HostEngines) (f : FactoryState) (db : ScriptDB)
    (g : Group) : Except String ChannelInstance × FactoryState × ScriptDB :=
  match f.dynamicChannels.find? (fun p => p.1 == g.channelType) with
  | some p =>
    match NewScriptChannelRun E g p.2 with
    | .error e => (.error e, f, db)
    | .ok c =>
      (.ok c, { f with channelCache := cacheSet f.channelCache g.id c }, db)
  | none =>
    if f.staticChannels.contains g.channelType then
      match newStaticChannel g with
      | .error e => (.error e, f, db)
      | .ok c =>
        (.ok c, { f with channelCache := cacheSet f.channelCache g.id c }, db)
    else
      match db.find? (fun s =>
        s.channelType == g.channelType && s.status == "enabled") with
      | none =>
        (.error ("unsupported channel type " ++ squote g.channelType ++
          " and no script found: no enabled script found for channel type: " ++
          g.channelType), f, db)
      | some s =>
        match NewScriptChannelRun E g s with
        | .error e =>
          (.error ("unsupported channel type " ++ squote g.channelType ++
            " and no script found: failed to create script channel: " ++ e),
            f, markScriptError db s.id e)
        | .ok c =>
          (.ok c, { f with channelCache := cacheSet f.channelCache g.id c },
            db)

/-- `Factory.GetChannel` (factory source lines 67-111): return the
cached instance when present and its config identity still matches the
group (`IsConfigStale`, modelled from §4.4's config-hash comparison —
`BaseChannel.IsConfigStale` is outside the provided sources); otherwise
run the creation path. -/
def GetChannel (E : HostEngines) (f : FactoryState) (db : ScriptDB)
    (g : Group) : Except String ChannelInstance × FactoryState × ScriptDB :=
  match f.channelCache.find? (fun p => p.1 == g.id) with
  | some p =>
    if p.2.configHash == g.configHash then (.ok p.2, f, db)
    else createChannel E f db g
  | none => createChannel E f db g

/-- `Factory.RegisterDynamicChannel` (factory source lines 231-237):
replace any prior constructor for the type. -/
def registerDynamicChannel (f : FactoryState) (ct : String)
    (s : ChannelScript) : FactoryState :=
  { f with dynamicChannels :=
      (ct, s) :: f.dynamicChannels.filter (fun p => p.1 != ct) }

/-- The reload controller's state (`ScriptManager`, script_service.go
lines 525-535): the set of active script channel types and the last-seen
version hash per catalogue id.  (Go keys the versions by
`fmt.Sprintf("%d", id)`, an injective rendering of the id.) -/
structure ManagerState where
  activeScripts : List String
  scriptVersions : List (Nat × String)
  deriving DecidableEq, Repr

/-- The version hash of `checkForUpdates` (script_service.go line 672):
the update timestamp's rendering joined to the content hash of the
source.  The hash itself (`calculateScriptHash`, sha256 truncated to 16
hex characters) is external crypto and enters as the `hashFn`
parameter. -/
def versionHash (hashFn : String → String) (s : ChannelScript) : String :=
  toString s.updatedAt ++ "-" ++ hashFn s.script

/-- `ScriptManager.loadScript` (script_service.go lines 726-751): build
a fresh runtime from the row; on failure report it; on success register
a dynamic constructor closing over the row and record the type as
active.  It does not touch the factory's instance cache. -/
def loadScriptRun (E : HostEngines) (sm : ManagerState) (f : FactoryState)
    (s : ChannelScript) : Option (ManagerState × FactoryState) :=
  match E.loadRuntime s.script with
  | .error _ => none
  | .ok _ =>
    some ({ sm with activeScripts :=
        s.channelType :: sm.activeScripts.filter (fun t => t != s.channelType) },
      registerDynamicChannel f s.channelType s)

/-- Record a version hash for a catalogue id. -/
def setVersion (vs : List (Nat × String)) (id : Nat) (vh : String) :
    List (Nat × String) :=
  (id, vh) :: vs.filter (fun p => p.1 != id)

/-- One iteration of the per-entry loop of
`ScriptManager.checkForUpdates` (script_service.go lines 667-690): if
the entry's version hash is new or changed, attempt a reload; on success
store the new version, on failure log and continue (the prior registration
stays live and the prior version stays recorded). -/
def checkStep (E : HostEngines) (hashFn : String → String)
    (acc : ManagerState × FactoryState) (s : ChannelScript) :
    ManagerState × FactoryState :=
  let vh := versionHash hashFn s
  let changed :=
    match acc.1.scriptVersions.find? (fun p => p.1 == s.id) with
    | some p => p.2 != vh
    | none => true
  if changed then
    match loadScriptRun E acc.1 acc.2 s with
    | none => acc
    | some r => ({ r.1 with scriptVersions := setVersion r.1.scriptVersions s.id vh }, r.2)
  else acc

/-- `ScriptManager.checkForUpdates` (script_service.go lines 655-702):
fold the reload step over all enabled rows, then drop every active type
that no longer corresponds to an enabled row, unregistering its dynamic
constructor.  No step of this pass touches the factory's instance
cache. -/
def checkForUpdates (E : HostEngines) (hashFn : String → String)
    (sm : ManagerState) (f : FactoryState) (db : ScriptDB) :
    ManagerState × FactoryState :=
  let enabled := db.filter (fun s => s.status == "enabled")
  let p1 := enabled.foldl (checkStep E hashFn) (sm, f)
  let enabledTypes := enabled.map (fun s => s.channelType)
  ({ p1.1 with activeScripts :=
      p1.1.activeScripts.filter (fun ct => enabledTypes.contains ct) },
    { p1.2 with dynamicChannels :=
      p1.2.dynamicChannels.filter (fun p =>
        !(p1.1.activeScripts.contains p.1 && !enabledTypes.contains p.1)) })

theorem checkStep_cache (E : HostEngines) (hashFn : String → String)
    (acc : ManagerState × FactoryState) (s : ChannelScript) :
    ((checkStep E hashFn acc s).2).channelCache = acc.2.channelCache := by
  unfold checkStep loadScriptRun
  cases hfind : acc.1.scriptVersions.find? (fun p => p.1 == s.id) <;>
    cases hrun : E.loadRuntime s.script <;>
      simp only [hfind, hrun] <;>
        split <;>
          simp [registerDynamicChannel, setVersion]

theorem foldl_checkStep_cache (E : HostEngines) (hashFn : String → String)
    (l : List ChannelScript) :
    ∀ acc : ManagerState × FactoryState,
      ((l.foldl (checkStep E hashFn) acc).2).channelCache
        = acc.2.channelCache := by
  induction l with
  | nil => intro acc; rfl
  | cons s l ih =>
    intro acc
    rw [List.foldl_cons, ih (checkStep E hashFn acc s),
      checkStep_cache]

/-- The reload pass leaves the instance cache exactly as it found it. -/
theorem checkForUpdates_preserves_cache (E : HostEngines)
    (hashFn : String → String) (sm : ManagerState) (f : FactoryState)
    (db : ScriptDB) :
    ((checkForUpdates E hashFn sm f db).2).channelCache
      = f.channelCache := by
  unfold checkForUpdates
  exact foldl_checkStep_cache E hashFn _ (sm, f)

/-- C2 (amended).  A reload pass that detects a changed version and
successfully builds the new runtime replaces the Factory's dynamic
constructor for the entry's channel type, but invalidates **no** cached
Channel Instance: `checkForUpdates` never touches the instance cache
(`Factory.InvalidateCache` has no caller), so a subsequent `getChannel`
for a group whose config is unchanged returns the previously cached
instance, still bound to the old adapter. -/
theorem reload_leaves_cached_instances_live (E : HostEngines)
    (hashFn : String → String) (sm : ManagerState) (f : FactoryState)
    (db : ScriptDB) (g : Group) (c : ChannelInstance)
    (hc : f.channelCache.find? (fun p => p.1 == g.id) = some (g.id, c))
    (hfresh : c.configHash = g.configHash) :
    ((checkForUpdates E hashFn sm f db).2).channelCache = f.channelCache ∧
    (GetChannel E (checkForUpdates E hashFn sm f db).2 db g).1 = .ok c ∧
    (GetChannel E (checkForUpdates E hashFn sm f db).2 db g).2.1
      = (checkForUpdates E hashFn sm f db).2 := by
  have hcache := checkForUpdates_preserves_cache E hashFn sm f db
  refine ⟨hcache, ?_, ?_⟩
  · unfold GetChannel
    rw [hcache, hc]
    simp [hfresh]
  · unfold GetChannel
    rw [hcache, hc]
    simp [hfresh]

/-- The original catalogue row of the hot-reload scenario. -/
def grokRowOld : ChannelScript where
  id := 1
  name := "grok-channel"
  channelType := "grok"
  script := "function exports() 1"
  version := "1.0.0"
  status := "enabled"
  errorMsg := ""
  updatedAt := 10

/-- The same row after `update(id, {script: S'})`: new source, new
update timestamp. -/
def grokRowNew : ChannelScript where
  id := 1
  name := "grok-channel"
  channelType := "grok"
  script := "function exports() 4"
  version := "1.0.0"
  status := "enabled"
  errorMsg := ""
  updatedAt := 30

/-- A stand-in for `calculateScriptHash` used to evaluate the reload
pass at concrete inputs: the identity rendering (all that matters to the
pass is that distinct sources yield distinct hashes, which sha256's
truncation does for these inputs). -/
def plainHash (s : String) : String := s

/-- The group bound to `grok`, with its current config identity. -/
def grokGroup : Group where
  id := 7
  channelType := "grok"
  configHash := 0
  upstreamsOk := true

/-- The instance cached for `grokGroup` before the reload, built from
the old row. -/
def grokOldInstance : ChannelInstance where
  channelType := "grok"
  sourceScript := some grokRowOld
  configHash := 0

/-- Factory state before the reload tick: old constructor registered,
old instance cached. -/
def grokFactoryBefore : FactoryState where
  channelCache := [(7, grokOldInstance)]
  dynamicChannels := [("grok", grokRowOld)]
  staticChannels := []

/-- Manager state before the reload tick: version hash of the old row
recorded. -/
def grokManagerBefore : ManagerState where
  activeScripts := ["grok"]
  scriptVersions := [(1, versionHash plainHash grokRowOld)]

/-- C2 counterexample.  After the update is persisted
(`db = [grokRowNew]`) the reload pass sees a changed version hash and
replaces the dynamic constructor with one bound to the new row — but a
subsequent `getChannel` for the (config-unchanged) group still returns
the cached instance built from the **old** row, because the pass
invalidated nothing.  This refutes the claim that the pass invalidates
every cached Channel Instance whose group references the channel
type. -/
theorem reload_does_not_invalidate_cached_instance :
    ((checkForUpdates benignEngines plainHash grokManagerBefore
        grokFactoryBefore [grokRowNew]).2).dynamicChannels
      = [("grok", grokRowNew)] ∧
    (GetChannel benignEngines
        (checkForUpdates benignEngines plainHash grokManagerBefore
          grokFactoryBefore [grokRowNew]).2 [grokRowNew] grokGroup).1
      = .ok grokOldInstance ∧
    ¬ ((GetChannel benignEngines
        (checkForUpdates benignEngines plainHash grokManagerBefore
          grokFactoryBefore [grokRowNew]).2 [grokRowNew] grokGroup).1
      = .ok { channelType := "grok", sourceScript := some grokRowNew,
              configHash := 0 }) := by
  refine ⟨by decide, by decide, by decide⟩

/-- Closed witness for `reload_leaves_cached_instances_live` on the same
concrete scenario. -/
theorem reload_leaves_cached_instances_live_witness :
    (grokFactoryBefore.channelCache.find? (fun p => p.1 == grokGroup.id)
      = some (grokGroup.id, grokOldInstance)) ∧
    (grokOldInstance.configHash = grokGroup.configHash) ∧
    (((checkForUpdates benignEngines plainHash grokManagerBefore
        grokFactoryBefore [grokRowNew]).2).channelCache
        = grokFactoryBefore.channelCache ∧
      (GetChannel benignEngines
          (checkForUpdates benignEngines plainHash grokManagerBefore
            grokFactoryBefore [grokRowNew]).2 [grokRowNew] grokGroup).1
        = .ok grokOldInstance ∧
      (GetChannel benignEngines
          (checkForUpdates benignEngines plainHash grokManagerBefore
            grokFactoryBefore [grokRowNew]).2 [grokRowNew] grokGroup).2.1
        = (checkForUpdates benignEngines plainHash grokManagerBefore
            grokFactoryBefore [grokRowNew]).2) :=
  ⟨by decide, by decide,
    reload_leaves_cached_instances_live benignEngines plainHash
      grokManagerBefore grokFactoryBefore [grokRowNew] grokGroup
      grokOldInstance (by decide) (by decide)⟩

/-- C6.  On a cache miss (or a stale cached config hash) `GetChannel`
resolves in order: the dynamic constructor for the group's channel type
first; the static registry second; and last a catalogue lookup of an
enabled row with matching channel type.  A dynamic or static
construction failure fails the call without touching state; a last-resort
construction failure marks the catalogue row `status=error` with the
creation failure message and fails the call; every success stores the
instance in the cache keyed by the group id and returns it. -/
theorem getChannel_resolution (E : HostEngines) (f : FactoryState)
    (db : ScriptDB) (g : Group)
    (hmiss : ∀ p, f.channelCache.find? (fun q => q.1 == g.id) = some p →
      p.2.configHash ≠ g.configHash) :
    GetChannel E f db g = createChannel E f db g ∧
    (∀ s, f.dynamicChannels.find? (fun p => p.1 == g.channelType)
        = some (g.channelType, s) →
      (∀ c, NewScriptChannelRun E g s = .ok c →
        createChannel E f db g =
          (.ok c, { f with channelCache := cacheSet f.channelCache g.id c },
            db)) ∧
      (∀ e, NewScriptChannelRun E g s = .error e →
        createChannel E f db g = (.error e, f, db))) ∧
    (f.dynamicChannels.find? (fun p => p.1 == g.channelType) = none →
      f.staticChannels.contains g.channelType = true →
      (∀ c, newStaticChannel g = .ok c →
        createChannel E f db g =
          (.ok c, { f with channelCache := cacheSet f.channelCache g.id c },
            db))) ∧
    (f.dynamicChannels.find? (fun p => p.1 == g.channelType) = none →
      f.staticChannels.contains g.channelType = false →
      (db.find? (fun s =>
          s.channelType == g.channelType && s.status == "enabled") = none →
        createChannel E f db g =
          (.error ("unsupported channel type " ++ squote g.channelType ++
            " and no script found: no enabled script found for channel type: "
            ++ g.channelType), f, db)) ∧
      (∀ s, db.find? (fun s =>
          s.channelType == g.channelType && s.status == "enabled") = some s →
        (∀ e, NewScriptChannelRun E g s = .error e →
          createChannel E f db g =
            (.error ("unsupported channel type " ++ squote g.channelType ++
              " and no script found: failed to create script channel: " ++ e),
              f, markScriptError db s.id e)) ∧
        (∀ c, NewScriptChannelRun E g s = .ok c →
          createChannel E f db g =
            (.ok c, { f with channelCache := cacheSet f.channelCache g.id c },
              db)))) := by
  refine ⟨?_, ?_, ?_, ?_⟩
  · unfold GetChannel
    cases hfind : f.channelCache.find? (fun q => q.1 == g.id) with
    | none => rfl
    | some p =>
      have hne := hmiss p hfind
      have hb : (p.2.configHash == g.configHash) = false := by
        simpa using hne
      simp only [hb, Bool.false_eq_true, if_false]
  · intro s hdyn
    constructor
    · intro c hok
      unfold createChannel
      simp only [hdyn, hok]
    · intro e herr
      unfold createChannel
      simp only [hdyn, herr]
  · intro hdyn hstatic
    intro c hok
    unfold createChannel
    simp only [hdyn, hstatic, if_true, hok]
  · intro hdyn hstatic
    constructor
    · intro hnone
      unfold createChannel
      simp only [hdyn, hstatic, Bool.false_eq_true, if_false, hnone]
    · intro s hrow
      constructor
      · intro e herr
        unfold createChannel
        simp only [hdyn, hstatic, Bool.false_eq_true, if_false, hrow, herr]
      · intro c hok
        unfold createChannel
        simp only [hdyn, hstatic, Bool.false_eq_true, if_false, hrow, hok]

/-- Engines in which the VM load of every source fails with a fixed
message, used to evaluate the last-resort error-marking path at a
concrete input. -/
def failingEngines : HostEngines :=
  { benignEngines with loadRuntime := fun _ => .error "exports is not defined" }

/-- A factory with nothing cached and no registered constructors. -/
def emptyFactory : FactoryState where
  channelCache := []
  dynamicChannels := []
  staticChannels := []

/-- Closed witness for `getChannel_resolution`: with an empty cache (the
miss hypothesis holds vacuously), no dynamic or static constructor for
`grok` and an enabled catalogue row whose runtime fails to build, the
call errors and the row is marked `status=error` with the creation
failure message. -/
theorem getChannel_resolution_witness :
    (∀ p, emptyFactory.channelCache.find?
        (fun q => q.1 == grokGroup.id) = some p →
      p.2.configHash ≠ grokGroup.configHash) ∧
    GetChannel failingEngines emptyFactory [grokRowOld] grokGroup
      = createChannel failingEngines emptyFactory [grokRowOld] grokGroup ∧
    createChannel failingEngines emptyFactory [grokRowOld] grokGroup
      = (.error ("unsupported channel type " ++ squote "grok" ++
          " and no script found: failed to create script channel: " ++
          "failed to create script runtime: exports is not defined"),
          emptyFactory,
          markScriptError [grokRowOld] 1
            "failed to create script runtime: exports is not defined") :=
  ⟨by simp [emptyFactory],
    (getChannel_resolution failingEngines emptyFactory [grokRowOld]
      grokGroup (by simp [emptyFactory])).1,
    (((getChannel_resolution failingEngines emptyFactory [grokRowOld]
        grokGroup (by simp [emptyFactory])).2.2.2 (by decide)
        (by decide)).2 grokRowOld (by decide)).1
      "failed to create script runtime: exports is not defined" (by decide)⟩

/-! ## Validation VM versus production VM

`ScriptSecurityValidator.validateSyntax` and `validateStructure`
(script_service.go lines 423-509) run the source on a bare `goja.New()`
VM, while the production `ScriptRuntime.setupEnvironment`
(script_runtime.go lines 63-116) first strips dangerous globals and
installs the `utils`/`console` host objects.  To settle the consequence
claimed of this difference we give a small top-level script model whose
evaluation depends only on which globals the VM defines — exactly the
differential between the two setups. -/

/-- The value bound to a global name in a VM. -/
inductive JSGlobalVal where
  | builtin
  | strippedUndefined
  | hostObject
  | exportsFn (good : Bool)
  deriving DecidableEq, Repr

/-- A VM's global scope, first binding wins. -/
abbrev JSEnv := List (String × JSGlobalVal)

/-- ECMA built-ins present on a bare `goja.New()` VM (the relevant
ones; `eval` and `Function` are live there). -/
def baseVMGlobals : List String :=
  ["Object", "Array", "String", "Number", "Boolean", "JSON", "Math",
   "Date", "RegExp", "Error", "TypeError", "parseInt", "parseFloat",
   "isNaN", "eval", "Function"]

/-- The VM the validator's `validateSyntax`/`validateStructure` use:
`goja.New()` with no further setup — no `utils`, no `console`, no
stripping. -/
def freshGojaEnv : JSEnv := baseVMGlobals.map (fun n => (n, .builtin))

/-- The names `setupEnvironment` sets to undefined
(script_runtime.go lines 66-74). -/
def strippedGlobals : List String :=
  ["eval", "Function", "setTimeout", "setInterval", "setImmediate",
   "require", "process", "global", "globalThis"]

/-- The production VM scope after `ScriptRuntime.setupEnvironment`
(script_runtime.go lines 63-116): the dangerous names overridden to
undefined and the `utils`/`console` host objects installed on top of the
bare VM. -/
def setupEnvironmentEnv : JSEnv :=
  [("utils", .hostObject), ("console", .hostObject)] ++
    strippedGlobals.map (fun n => (n, .strippedUndefined)) ++ freshGojaEnv

/-- A top-level statement of the script model: an expression statement
referencing a global identifier (a `ReferenceError` if the VM does not
define it), or a declaration of the top-level `exports` function
(`good` records whether calling it yields the complete hook-and-metadata
object).  Declarations are modelled in statement order; the scripts
below do not rely on hoisting. -/
inductive MiniStmt where
  | identExpr (name : String)
  | defineExports (good : Bool)
  deriving DecidableEq, Repr

/-- Top-level evaluation of a script model in a VM scope: goja's
`RunString` of the whole source. -/
def evalTop : JSEnv → List MiniStmt → Except String JSEnv
  | env, [] => .ok env
  | env, .identExpr n :: rest =>
    match env.find? (fun p => p.1 == n) with
    | some _ => evalTop env rest
    | none => .error ("ReferenceError: " ++ n ++ " is not defined")
  | env, .defineExports good :: rest =>
    evalTop (("exports", .exportsFn good) :: env) rest

/-- The source text of a complete `exports` declaration (all five hooks
and the metadata record, every member an anonymous function
expression). -/
def goodExportsSource : String :=
  "function exports() \x7b return \x7b " ++
  "buildUpstreamURL: function (u, g) \x7b return u; \x7d, " ++
  "modifyRequest: function (r, k, g) \x7b \x7d, " ++
  "isStreamRequest: function (c) \x7b return false; \x7d, " ++
  "extractModel: function (c) \x7b return \"m\"; \x7d, " ++
  "validateKey: function (k, g) \x7b return \x7b valid: true \x7d; \x7d, " ++
  "metadata: \x7b name: \"t\", version: \"1\", description: \"d\", " ++
  "author: \"a\", channel_type: \"t\" \x7d \x7d; \x7d"

/-- The source text of an `exports` declaration returning an empty
object. -/
def badExportsSource : String :=
  "function exports() \x7b return \x7b \x7d; \x7d"

/-- The rendering of a statement as source text. -/
def renderStmt : MiniStmt → String
  | .identExpr n => n ++ ";"
  | .defineExports true => goodExportsSource
  | .defineExports false => badExportsSource

/-- Newline-joined lines, Go-style. -/
def joinLines : List String → String
  | [] => ""
  | [l] => l
  | l :: ls => l ++ "\n" ++ joinLines ls

/-- The source text of a script model, one statement per line. -/
def renderScript (s : List MiniStmt) : String :=
  joinLines (s.map renderStmt)

/-- The number of matches of the fixed named-function-definition regex
(script_service.go line 414) in a rendering: each `exports` declaration
contributes exactly one (every other function in the rendering is an
anonymous function expression, which the regex does not match). -/
def functionDefCount (s : List MiniStmt) : Nat :=
  s.countP (fun st =>
    match st with
    | .defineExports _ => true
    | _ => false)

/-- The structural contract check of `validateStructure`
(script_service.go lines 436-509) on the script model: run the source on
a bare VM, require a callable global `exports`, call it and require the
complete hook-and-metadata object. -/
def structureCheckMini (s : List MiniStmt) : Except String Unit :=
  match evalTop freshGojaEnv s with
  | .error e => .error ("script execution failed: " ++ e)
  | .ok env =>
    match env.find? (fun p => p.1 == "exports") with
    | none =>
      .error ("script must define an " ++ squote "exports" ++ " function")
    | some p =>
      match p.2 with
      | .exportsFn good =>
        if good then .ok ()
        else .error "missing required method: buildUpstreamURL"
      | _ => .error (squote "exports" ++ " must be a function")

/-- The external-engine record that evaluates a script model: the regexp
engine stays a parameter, and the VM stages are the model's semantics
(each engine function is only ever applied to the model's own
rendering). -/
def miniEngines (matchO : String → String → Except String Bool)
    (s : List MiniStmt) : HostEngines where
  matchString := matchO
  countFunctionDefs := fun _ => functionDefCount s
  topLevelRun := fun _ =>
    match evalTop freshGojaEnv s with
    | .error e => .error e
    | .ok _ => .ok ()
  structureRun := fun _ => structureCheckMini s
  loadRuntime := fun _ =>
    match evalTop setupEnvironmentEnv s with
    | .error e => .error e
    | .ok _ => .ok ()

/-- `ScriptRuntime` construction on the script model (`NewScriptRuntime`
+ `loadScript`, script_runtime.go lines 35-61 and 119-138): run the
source on the production scope of `setupEnvironment`, then require a
callable global `exports`. -/
def newScriptRuntimeMini (s : List MiniStmt) : Except String JSEnv :=
  match evalTop setupEnvironmentEnv s with
  | .error e => .error ("failed to load script: script execution failed: " ++ e)
  | .ok env =>
    match env.find? (fun p => p.1 == "exports") with
    | some p =>
      match p.2 with
      | .exportsFn _ => .ok env
      | _ => .error "script must export a function"
    | none => .error "script must export a function"

/-- `NewScriptChannel` on the script model (script_runtime.go lines
512-548): build the runtime, look up `exports` and call it (`RunString
"exports()"`), retaining the returned channel object (its completeness
flag). -/
def newScriptChannelMini (s : List MiniStmt) : Except String Bool :=
  match newScriptRuntimeMini s with
  | .error e => .error ("failed to create script runtime: " ++ e)
  | .ok env =>
    match env.find? (fun p => p.1 == "exports") with
    | some p =>
      match p.2 with
      | .exportsFn good => .ok good
      | _ => .error "exports must be a function"
    | none => .error "script must export a function"

theorem findForbiddenPattern_none (E : HostEngines) (s : String) :
    ∀ pats : List String, (∀ p ∈ pats, E.matchString p s = .ok false) →
      findForbiddenPattern E pats s = none := by
  intro pats
  induction pats with
  | nil => intro _; rfl
  | cons p ps ih =>
    intro h
    unfold findForbiddenPattern
    rw [h p (by simp)]
    exact ih (fun q hq => h q (by simp [hq]))

/-- The script that separates the two VMs: it reads the global `utils`
during top-level evaluation and then declares a fully conforming
`exports`. -/
def utilsProbeScript : List MiniStmt :=
  [.identExpr "utils", .defineExports true]

set_option maxRecDepth 100000 in
/-- C10.  The validator's parse/execute and structural checks run the
script on a bare throwaway VM without the `utils`/`console` host surface
or the production stripping, so the probe script — which passes the
size, pattern and complexity gates (for any regexp engine that, like
Go's, finds no forbidden pattern in its rendering) — fails validation
with a `ReferenceError` for `utils`, while constructing a production
`ScriptRuntime` from it and calling `exports()` there succeeds. -/
theorem validator_vm_rejects_production_loadable_script
    (matchO : String → String → Except String Bool)
    (hm : ∀ p ∈ NewScriptSecurityValidator.forbiddenPatterns,
      matchO p (renderScript utilsProbeScript) = .ok false) :
    ValidateScript (miniEngines matchO utilsProbeScript)
        NewScriptSecurityValidator (renderScript utilsProbeScript)
      = .error ("syntax error: ReferenceError: utils is not defined") ∧
    newScriptChannelMini utilsProbeScript = .ok true := by
  constructor
  · have hforb := findForbiddenPattern_none
      (miniEngines matchO utilsProbeScript) (renderScript utilsProbeScript)
      NewScriptSecurityValidator.forbiddenPatterns hm
    unfold ValidateScript
    rw [if_neg (by decide)]
    rw [hforb]
    have hcomp : validateComplexity (miniEngines matchO utilsProbeScript)
        (renderScript utilsProbeScript) = .ok () := by rfl
    rw [hcomp]
    have htop : (miniEngines matchO utilsProbeScript).topLevelRun
        (renderScript utilsProbeScript)
        = .error "ReferenceError: utils is not defined" := by rfl
    rw [htop]
    rfl
  · rfl

set_option maxRecDepth 100000 in
/-- Closed witness for `validator_vm_rejects_production_loadable_script`
with a concrete no-match regexp engine. -/
theorem validator_vm_rejects_production_loadable_script_witness :
    (∀ p ∈ NewScriptSecurityValidator.forbiddenPatterns,
      (fun (_ _ : String) => (.ok false : Except String Bool)) p
        (renderScript utilsProbeScript) = .ok false) ∧
    (ValidateScript
        (miniEngines (fun _ _ => .ok false) utilsProbeScript)
        NewScriptSecurityValidator (renderScript utilsProbeScript)
      = .error ("syntax error: ReferenceError: utils is not defined") ∧
    newScriptChannelMini utilsProbeScript = .ok true) :=
  ⟨fun _ _ => rfl,
    validator_vm_rejects_production_loadable_script
      (fun _ _ => .ok false) (fun _ _ => rfl)⟩

end GptLoad
